import Mathlib

set_option maxHeartbeats 1000000

/-!
Shallow embedding of src/subscription.ts (reactor-core-js subscription
primitives): the empty subscription, the scalar subscription, the deferred
scalar subscription with its dual (ordinary / fused) state tracks, the
fusion-suppressing adapter, and the SH validation helpers.

Subscriber callbacks are modelled as event traces.  Re-entrancy of the
downstream subscriber is modelled by a Boolean argument on the operations
that invoke onNext: when true, the subscriber calls cancel() from inside
the onNext callback before returning.
-/

/-- Modelled from the spec: the fusion-mode constants live in the external
flow module (flow.FC), which is not part of this repository's sources.  The
spec describes them as a small closed set — none, sync, async, and a
boundary-crossing restriction flag — combined via bitwise composition, so
they are embedded as distinct bits with none = 0. -/
def FC.NONE : Nat := 0

/-- Modelled from the spec: the sync fusion bit of flow.FC. -/
def FC.SYNC : Nat := 1

/-- Modelled from the spec: the async fusion bit of flow.FC. -/
def FC.ASYNC : Nat := 2

/-- Modelled from the spec: the boundary-restriction bit of flow.FC. -/
def FC.BOUNDARY : Nat := 4

/-- Observable events of a run: subscriber callbacks (onSubscribe with the
empty singleton, onNext, onComplete, onError), executions of cancel()
(including re-entrant ones), and recorded poll() results. -/
inductive Ev (T : Type) where
  | subscribeEmpty : Ev T
  | next (t : Option T) : Ev T
  | complete : Ev T
  | error (msg : String) : Ev T
  | cancelled : Ev T
  | polled (t : Option T) : Ev T
  deriving DecidableEq, Repr

/-- Identity of a Subscription reference, as far as validSubscription can
distinguish them: the SH.CANCELLED sentinel versus any other instance. -/
inductive SubRef where
  | cancelledSentinel : SubRef
  | other (id : Nat) : SubRef
  deriving DecidableEq, Repr

/-- SH.validRequest: throws the invalid-demand error when n is not positive,
otherwise returns true (src/subscription.ts lines 296-301). -/
def SH.validRequest (n : Int) : Except String Bool :=
  if n ≤ 0 then Except.error ("n > 0 required but it was " ++ toString n)
  else Except.ok true

/-- SH.validSubscription (src/subscription.ts lines 305-317).  The first
component records whether the incoming subscription was cancelled during the
call; the second is the returned Boolean or the thrown error. -/
def SH.validSubscription (current : Option SubRef) (s : Option SubRef) :
    Bool × Except String Bool :=
  match s with
  | none => (false, Except.error "s is null")
  | some _ =>
    match current with
    | none => (false, Except.ok true)
    | some c =>
      if c = SubRef.cancelledSentinel then (true, Except.ok false)
      else (true, Except.error "Subscription already set!")

/-- EmptySubscription.request: deliberately ignores the call, never throws
(src/subscription.ts lines 17-19). -/
def EmptySubscription.request (n : Int) : Except String Unit := Except.ok ()

/-- EmptySubscription.requestFusion: always reports no fusion. -/
def EmptySubscription.requestFusion (mode : Nat) : Nat := FC.NONE

/-- EmptySubscription.poll: always the empty marker. -/
def EmptySubscription.poll (T : Type) : Option T := none

/-- EmptySubscription.isEmpty: always true. -/
def EmptySubscription.isEmpty : Bool := true

/-- EmptySubscription.size: always 0. -/
def EmptySubscription.size : Nat := 0

/-- EmptySubscription.complete(s): onSubscribe with the singleton instance,
then onComplete (src/subscription.ts lines 50-53). -/
def EmptySubscription.complete (T : Type) : List (Ev T) :=
  [Ev.subscribeEmpty, Ev.complete]

/-- EmptySubscription.error(s, e): onSubscribe with the singleton instance,
then onError(e) (src/subscription.ts lines 56-59). -/
def EmptySubscription.error (T : Type) (e : String) : List (Ev T) :=
  [Ev.subscribeEmpty, Ev.error e]

/-- State of a ScalarSubscription: the held value and the once flag
(false at construction, since the TS field starts undefined). -/
structure ScalarSubscription (T : Type) where
  mValue : T
  once : Bool
  deriving DecidableEq, Repr

variable {T : Type}

/-- A freshly constructed ScalarSubscription. -/
def ScalarSubscription.init (v : T) : ScalarSubscription T := ⟨v, false⟩

/-- ScalarSubscription.request (src/subscription.ts lines 78-87). -/
def ScalarSubscription.request (s : ScalarSubscription T) (n : Int) :
    Except String (ScalarSubscription T × List (Ev T)) :=
  match SH.validRequest n with
  | Except.error e => Except.error e
  | Except.ok _ =>
    if s.once then Except.ok (s, [])
    else Except.ok ({ s with once := true }, [Ev.next (some s.mValue), Ev.complete])

/-- ScalarSubscription.cancel: marks delivered, silently. -/
def ScalarSubscription.cancel (s : ScalarSubscription T) : ScalarSubscription T :=
  { s with once := true }

/-- ScalarSubscription.poll (src/subscription.ts lines 97-103). -/
def ScalarSubscription.poll (s : ScalarSubscription T) :
    ScalarSubscription T × Option T :=
  if s.once then (s, none) else ({ s with once := true }, some s.mValue)

/-- ScalarSubscription.isEmpty. -/
def ScalarSubscription.isEmpty (s : ScalarSubscription T) : Bool := s.once

/-- ScalarSubscription.size. -/
def ScalarSubscription.size (s : ScalarSubscription T) : Nat :=
  if s.once then 0 else 1

/-- ScalarSubscription.clear. -/
def ScalarSubscription.clear (s : ScalarSubscription T) : ScalarSubscription T :=
  { s with once := true }

/-- ScalarSubscription.requestFusion: grants sync fusion when the sync bit
is requested (src/subscription.ts lines 117-122). -/
def ScalarSubscription.requestFusion (s : ScalarSubscription T) (mode : Nat) : Nat :=
  if mode &&& FC.SYNC ≠ 0 then FC.SYNC else FC.NONE

/-- External calls a consumer can make on a ScalarSubscription. -/
inductive SOp where
  | request (n : Int) : SOp
  | poll : SOp
  | cancel : SOp
  deriving DecidableEq, Repr

/-- One external call on a ScalarSubscription.  A request whose validation
throws leaves the state unchanged and produces no subscriber callbacks (the
error propagates to the external caller). -/
def ScalarSubscription.step (s : ScalarSubscription T) :
    SOp → ScalarSubscription T × List (Ev T)
  | SOp.request n =>
    match s.request n with
    | Except.ok r => r
    | Except.error _ => (s, [])
  | SOp.poll =>
    let p := s.poll
    (p.1, [Ev.polled p.2])
  | SOp.cancel => (s.cancel, [Ev.cancelled])

/-- Run a sequence of external calls on a ScalarSubscription. -/
def ScalarSubscription.run :
    ScalarSubscription T → List SOp → ScalarSubscription T × List (Ev T)
  | s, [] => (s, [])
  | s, op :: ops =>
    let r1 := s.step op
    let r2 := ScalarSubscription.run r1.1 ops
    (r2.1, r1.2 ++ r2.2)

/-- The ordinary request/value state track of the deferred scalar
subscription (src/subscription.ts lines 125-131). -/
inductive DeferredState where
  | NO_REQUEST_NO_VALUE : DeferredState
  | HAS_REQUEST_NO_VALUE : DeferredState
  | NO_REQUEST_HAS_VALUE : DeferredState
  | HAS_REQUEST_HAS_VALUE : DeferredState
  | CANCELLED : DeferredState
  deriving DecidableEq, Repr

/-- The fusion state track (src/subscription.ts lines 133-138). -/
inductive FusedState where
  | NOT_FUSED : FusedState
  | NO_VALUE : FusedState
  | HAS_VALUE : FusedState
  | COMPLETE : FusedState
  deriving DecidableEq, Repr

/-- State of a DeferrendScalarSubscription (name as in the source):
the stored value (undefined at construction), the ordinary state track and
the fusion track. -/
structure DeferrendScalarSubscription (T : Type) where
  mValue : Option T
  mState : DeferredState
  mFused : FusedState
  deriving DecidableEq, Repr

/-- A freshly constructed DeferrendScalarSubscription. -/
def DeferrendScalarSubscription.init (T : Type) : DeferrendScalarSubscription T :=
  ⟨none, DeferredState.NO_REQUEST_NO_VALUE, FusedState.NOT_FUSED⟩

/-- DeferrendScalarSubscription.cancel (src/subscription.ts lines 194-197). -/
def DeferrendScalarSubscription.cancel (d : DeferrendScalarSubscription T) :
    DeferrendScalarSubscription T :=
  { d with mState := DeferredState.CANCELLED, mFused := FusedState.COMPLETE }

/-- DeferrendScalarSubscription.complete (src/subscription.ts lines 153-175).
The argument rc models a subscriber that re-entrantly calls cancel() from
inside the onNext callback; the cancel is applied to the state between the
onNext event and the code that follows the onNext call. -/
def DeferrendScalarSubscription.complete (d : DeferrendScalarSubscription T)
    (t : T) (rc : Bool) : DeferrendScalarSubscription T × List (Ev T) :=
  if d.mFused = FusedState.NO_VALUE then
    let d1 : DeferrendScalarSubscription T :=
      { d with mValue := some t, mFused := FusedState.HAS_VALUE }
    let d2 := if rc then d1.cancel else d1
    (d2, Ev.next (some t) :: ((if rc then [Ev.cancelled] else []) ++ [Ev.complete]))
  else
    match d.mState with
    | DeferredState.HAS_REQUEST_NO_VALUE =>
      let d1 : DeferrendScalarSubscription T :=
        { d with mState := DeferredState.HAS_REQUEST_HAS_VALUE }
      let d2 := if rc then d1.cancel else d1
      if d2.mState = DeferredState.CANCELLED then
        (d2, Ev.next (some t) :: (if rc then [Ev.cancelled] else []))
      else
        (d2, Ev.next (some t) :: ((if rc then [Ev.cancelled] else []) ++ [Ev.complete]))
    | DeferredState.NO_REQUEST_NO_VALUE =>
      ({ d with mValue := some t, mState := DeferredState.NO_REQUEST_HAS_VALUE }, [])
    | _ => (d, [])

/-- DeferrendScalarSubscription.request (src/subscription.ts lines 177-192),
with the same re-entrant-cancel modelling as complete. -/
def DeferrendScalarSubscription.request (d : DeferrendScalarSubscription T)
    (n : Int) (rc : Bool) :
    Except String (DeferrendScalarSubscription T × List (Ev T)) :=
  match SH.validRequest n with
  | Except.error e => Except.error e
  | Except.ok _ =>
    Except.ok (
      match d.mState with
      | DeferredState.NO_REQUEST_HAS_VALUE =>
        let d1 : DeferrendScalarSubscription T :=
          { d with mState := DeferredState.HAS_REQUEST_HAS_VALUE }
        let d2 := if rc then d1.cancel else d1
        if d2.mState = DeferredState.CANCELLED then
          (d2, Ev.next d.mValue :: (if rc then [Ev.cancelled] else []))
        else
          (d2, Ev.next d.mValue :: ((if rc then [Ev.cancelled] else []) ++ [Ev.complete]))
      | DeferredState.NO_REQUEST_NO_VALUE =>
        ({ d with mState := DeferredState.HAS_REQUEST_NO_VALUE }, [])
      | _ => (d, []))

/-- The granting condition of DeferrendScalarSubscription.requestFusion:
the async bit is requested and the boundary bit is absent. -/
def grantsAsync (mode : Nat) : Bool :=
  (mode &&& FC.ASYNC != 0) && (mode &&& FC.BOUNDARY == 0)

/-- DeferrendScalarSubscription.requestFusion (src/subscription.ts
lines 199-205). -/
def DeferrendScalarSubscription.requestFusion (d : DeferrendScalarSubscription T)
    (mode : Nat) : DeferrendScalarSubscription T × Nat :=
  if grantsAsync mode then ({ d with mFused := FusedState.NO_VALUE }, FC.ASYNC)
  else (d, FC.NONE)

/-- DeferrendScalarSubscription.poll (src/subscription.ts lines 211-217). -/
def DeferrendScalarSubscription.poll (d : DeferrendScalarSubscription T) :
    DeferrendScalarSubscription T × Option T :=
  if d.mFused = FusedState.HAS_VALUE then
    ({ d with mFused := FusedState.COMPLETE }, d.mValue)
  else (d, none)

/-- DeferrendScalarSubscription.isEmpty. -/
def DeferrendScalarSubscription.isEmpty (d : DeferrendScalarSubscription T) : Bool :=
  d.mFused != FusedState.HAS_VALUE

/-- DeferrendScalarSubscription.size. -/
def DeferrendScalarSubscription.size (d : DeferrendScalarSubscription T) : Nat :=
  if d.isEmpty then 0 else 1

/-- DeferrendScalarSubscription.clear. -/
def DeferrendScalarSubscription.clear (d : DeferrendScalarSubscription T) :
    DeferrendScalarSubscription T :=
  { d with mFused := FusedState.COMPLETE }

/-- External calls on a DeferrendScalarSubscription considered by the
trace-safety claims.  The rc flags mark a re-entrant cancel issued by the
subscriber from inside the onNext triggered by the call. -/
inductive DOp (T : Type) where
  | complete (t : T) (rc : Bool) : DOp T
  | request (n : Int) (rc : Bool) : DOp T
  | cancel : DOp T
  | requestFusion (mode : Nat) : DOp T
  deriving DecidableEq, Repr

/-- One external call on a DeferrendScalarSubscription.  A request whose
validation throws leaves the state unchanged and produces no callbacks. -/
def DeferrendScalarSubscription.step (d : DeferrendScalarSubscription T) :
    DOp T → DeferrendScalarSubscription T × List (Ev T)
  | DOp.complete t rc => d.complete t rc
  | DOp.request n rc =>
    match d.request n rc with
    | Except.ok r => r
    | Except.error _ => (d, [])
  | DOp.cancel => (d.cancel, [Ev.cancelled])
  | DOp.requestFusion m => ((d.requestFusion m).1, [])

/-- Run a sequence of external calls on a DeferrendScalarSubscription. -/
def DeferrendScalarSubscription.run :
    DeferrendScalarSubscription T → List (DOp T) →
      DeferrendScalarSubscription T × List (Ev T)
  | d, [] => (d, [])
  | d, op :: ops =>
    let r1 := d.step op
    let r2 := DeferrendScalarSubscription.run r1.1 ops
    (r2.1, r1.2 ++ r2.2)

/-- A call observed by the upstream subscription wrapped by the
fusion-suppressing adapter. -/
inductive UpCall where
  | request (n : Int) : UpCall
  | cancel : UpCall
  deriving DecidableEq, Repr

/-- The fusion-suppressing adapter.  Its only state relevant here is the
remembered upstream subscription, abstracted by the fusion mode that
upstream would grant. -/
structure SuppressFusionSubscriber (T : Type) where
  upstreamGrant : Nat → Nat

/-- SuppressFusionSubscriber.request: forwards to the remembered upstream
subscription (src/subscription.ts lines 259-261); the result is the list of
calls the upstream observes. -/
def SuppressFusionSubscriber.request (a : SuppressFusionSubscriber T) (n : Int) :
    List UpCall :=
  [UpCall.request n]

/-- SuppressFusionSubscriber.cancel: forwards to upstream. -/
def SuppressFusionSubscriber.cancel (a : SuppressFusionSubscriber T) : List UpCall :=
  [UpCall.cancel]

/-- SuppressFusionSubscriber.requestFusion: always no fusion, ignoring what
upstream would grant (src/subscription.ts lines 267-269). -/
def SuppressFusionSubscriber.requestFusion (a : SuppressFusionSubscriber T)
    (mode : Nat) : Nat :=
  FC.NONE

/-- Forward a sequence of request/cancel calls through the adapter and
collect the calls the upstream subscription observes. -/
def SuppressFusionSubscriber.forwardRun (a : SuppressFusionSubscriber T) :
    List UpCall → List UpCall
  | [] => []
  | UpCall.request n :: rest => a.request n ++ a.forwardRun rest
  | UpCall.cancel :: rest => a.cancel ++ a.forwardRun rest

/-- Recognizer of the onComplete event. -/
def Ev.isComplete : Ev T → Bool
  | Ev.complete => true
  | _ => false

/-- Recognizer of the cancel execution marker. -/
def Ev.isCancelled : Ev T → Bool
  | Ev.cancelled => true
  | _ => false

/-- Recognizer of an event that yields the value to the consumer: an onNext
push or a poll that returned a value. -/
def Ev.isYield : Ev T → Bool
  | Ev.next _ => true
  | Ev.polled (some _) => true
  | _ => false

/-- Number of onComplete events in a trace. -/
def countComplete (tr : List (Ev T)) : Nat := (tr.filter Ev.isComplete).length

/-- Number of value yields in a trace. -/
def yieldCount (tr : List (Ev T)) : Nat := (tr.filter Ev.isYield).length

/-- Whether a trace contains a cancel execution. -/
def hasCancelledEv (tr : List (Ev T)) : Bool := tr.any Ev.isCancelled

/-- A trace is clean when no onComplete event occurs after any cancel
execution. -/
def cleanAfterCancel : List (Ev T) → Bool
  | [] => true
  | e :: rest => (!(Ev.isCancelled e) || (countComplete rest == 0)) && cleanAfterCancel rest

/-- A sequence of deferred-subscription calls never arms the fusion track:
every requestFusion call in it uses a non-granting mode. -/
def noGrantCalls : List (DOp T) → Bool
  | [] => true
  | DOp.requestFusion m :: rest => !(grantsAsync m) && noGrantCalls rest
  | _ :: rest => noGrantCalls rest

lemma grantsAsync_iff (mode : Nat) :
    grantsAsync mode = true ↔ (mode &&& FC.ASYNC ≠ 0 ∧ mode &&& FC.BOUNDARY = 0) := by
  simp [grantsAsync, Bool.and_eq_true, bne_iff_ne, beq_iff_eq]

/-- C9: EmptySubscription.complete delivers exactly onSubscribe with the
singleton then onComplete, and EmptySubscription.error delivers exactly
onSubscribe with the singleton then onError(e). -/
theorem claim_C9 (T : Type) (e : String) :
    EmptySubscription.complete T = [Ev.subscribeEmpty, Ev.complete] ∧
    EmptySubscription.error T e = [Ev.subscribeEmpty, Ev.error e] :=
  ⟨rfl, rfl⟩

/-- C7: validSubscription is a trichotomy on the current subscription: a
cancelled-sentinel current cancels the incoming one and returns false; any
other present current cancels the incoming one and throws the
subscription-already-set error; an absent current returns true without
cancelling; an absent incoming throws the null-subscription error. -/
theorem claim_C7 (inc : SubRef) (c : SubRef) (hc : c ≠ SubRef.cancelledSentinel) :
    SH.validSubscription (some SubRef.cancelledSentinel) (some inc) =
      (true, Except.ok false) ∧
    SH.validSubscription (some c) (some inc) =
      (true, Except.error "Subscription already set!") ∧
    SH.validSubscription none (some inc) = (false, Except.ok true) ∧
    (∀ cur : Option SubRef,
      SH.validSubscription cur none = (false, Except.error "s is null")) := by
  refine ⟨rfl, ?_, rfl, ?_⟩
  · simp [SH.validSubscription, hc]
  · intro cur
    cases cur <;> rfl

theorem claim_C7_witness :
    SH.validSubscription (some SubRef.cancelledSentinel) (some (SubRef.other 0)) =
      (true, Except.ok false) ∧
    SH.validSubscription (some (SubRef.other 1)) (some (SubRef.other 0)) =
      (true, Except.error "Subscription already set!") ∧
    SH.validSubscription none (some (SubRef.other 0)) = (false, Except.ok true) ∧
    (∀ cur : Option SubRef,
      SH.validSubscription cur none = (false, Except.error "s is null")) :=
  claim_C7 (SubRef.other 0) (SubRef.other 1) (by decide)

/-- C8: the fusion-suppressing adapter denies fusion for every mode whatever
the wrapped upstream would grant, and every request/cancel call on it is
observed by the upstream exactly once, in order. -/
theorem claim_C8 {T : Type} (a : SuppressFusionSubscriber T) (mode : Nat)
    (n : Int) (calls : List UpCall) :
    a.requestFusion mode = FC.NONE ∧
    a.request n = [UpCall.request n] ∧
    a.cancel = [UpCall.cancel] ∧
    a.forwardRun calls = calls := by
  refine ⟨rfl, rfl, rfl, ?_⟩
  induction calls with
  | nil => rfl
  | cons c rest ih =>
    cases c <;>
      simp [SuppressFusionSubscriber.forwardRun, SuppressFusionSubscriber.request,
        SuppressFusionSubscriber.cancel, ih]

/-- C5: requestFusion on the deferred scalar subscription returns async
fusion exactly when the async bit is set and the boundary bit is clear; when
granted it arms the fused track, and in every other case it returns
no-fusion and leaves the state (hence the fusion track) unchanged. -/
theorem claim_C5 {T : Type} (d : DeferrendScalarSubscription T) (mode : Nat) :
    ((d.requestFusion mode).2 = FC.ASYNC ↔
      (mode &&& FC.ASYNC ≠ 0 ∧ mode &&& FC.BOUNDARY = 0)) ∧
    ((mode &&& FC.ASYNC ≠ 0 ∧ mode &&& FC.BOUNDARY = 0) →
      (d.requestFusion mode).1.mFused = FusedState.NO_VALUE) ∧
    (¬(mode &&& FC.ASYNC ≠ 0 ∧ mode &&& FC.BOUNDARY = 0) →
      (d.requestFusion mode).2 = FC.NONE ∧ (d.requestFusion mode).1 = d) := by
  by_cases h : grantsAsync mode = true
  · have hb := (grantsAsync_iff mode).1 h
    refine ⟨?_, fun _ => ?_, fun hcon => absurd hb hcon⟩
    · exact iff_of_true (by simp [DeferrendScalarSubscription.requestFusion, h]) hb
    · simp [DeferrendScalarSubscription.requestFusion, h]
  · have hb : ¬(mode &&& FC.ASYNC ≠ 0 ∧ mode &&& FC.BOUNDARY = 0) := by
      intro hcon
      exact h ((grantsAsync_iff mode).2 hcon)
    refine ⟨?_, fun hcon => absurd hcon hb, fun _ => ?_⟩
    · refine iff_of_false ?_ hb
      simp [DeferrendScalarSubscription.requestFusion, h, FC.ASYNC, FC.NONE]
    · simp [DeferrendScalarSubscription.requestFusion, h]

/-- C4 (amended): a non-positive request fails with the invalid-demand error
on the scalar and deferred scalar subscriptions; the empty subscription
deliberately ignores the call without failing, and the fusion-suppressing
adapter forwards the amount to the upstream subscription unvalidated. -/
theorem claim_C4 {T : Type} (n : Int) (h : n ≤ 0) (s : ScalarSubscription T)
    (d : DeferrendScalarSubscription T) (rc : Bool) (a : SuppressFusionSubscriber T) :
    s.request n = Except.error ("n > 0 required but it was " ++ toString n) ∧
    d.request n rc = Except.error ("n > 0 required but it was " ++ toString n) ∧
    EmptySubscription.request n = Except.ok () ∧
    a.request n = [UpCall.request n] := by
  refine ⟨?_, ?_, rfl, rfl⟩
  · simp [ScalarSubscription.request, SH.validRequest, h]
  · simp [DeferrendScalarSubscription.request, SH.validRequest, h]

theorem claim_C4_witness :
    (ScalarSubscription.init (5 : Nat)).request 0 =
      Except.error ("n > 0 required but it was " ++ toString (0 : Int)) ∧
    (DeferrendScalarSubscription.init Nat).request 0 false =
      Except.error ("n > 0 required but it was " ++ toString (0 : Int)) ∧
    EmptySubscription.request 0 = Except.ok () ∧
    (SuppressFusionSubscriber.mk (T := Nat) (fun _ => FC.ASYNC)).request 0 =
      [UpCall.request 0] :=
  claim_C4 0 (by decide) (ScalarSubscription.init 5)
    (DeferrendScalarSubscription.init Nat) false
    (SuppressFusionSubscriber.mk (fun _ => FC.ASYNC))

/-- C4 counterexample: the claim asserts that request with a non-positive
amount fails on every subscription variant, but EmptySubscription.request
deliberately ignores the call and does not fail at n = 0. -/
theorem claim_C4_cex : EmptySubscription.request 0 = Except.ok () := rfl

/-- C1: with fusion never negotiated and no cancellation, both interleavings
of one complete(v) and one request(n) with positive n deliver exactly
onNext(v) followed by onComplete and nothing else. -/
theorem claim_C1 {T : Type} (v : T) (n : Int) (h : 0 < n) :
    (DeferrendScalarSubscription.run (DeferrendScalarSubscription.init T)
        [DOp.complete v false, DOp.request n false]).2 =
      [Ev.next (some v), Ev.complete] ∧
    (DeferrendScalarSubscription.run (DeferrendScalarSubscription.init T)
        [DOp.request n false, DOp.complete v false]).2 =
      [Ev.next (some v), Ev.complete] := by
  have hn : ¬ (n ≤ 0) := not_le.mpr h
  constructor <;>
    simp [DeferrendScalarSubscription.run, DeferrendScalarSubscription.step,
      DeferrendScalarSubscription.complete, DeferrendScalarSubscription.request,
      DeferrendScalarSubscription.init, DeferrendScalarSubscription.cancel,
      SH.validRequest, hn]

theorem claim_C1_witness :
    (DeferrendScalarSubscription.run (DeferrendScalarSubscription.init Nat)
        [DOp.complete 7 false, DOp.request 1 false]).2 =
      [Ev.next (some 7), Ev.complete] ∧
    (DeferrendScalarSubscription.run (DeferrendScalarSubscription.init Nat)
        [DOp.request 1 false, DOp.complete 7 false]).2 =
      [Ev.next (some 7), Ev.complete] :=
  claim_C1 7 1 (by decide)

/-- C3 counterexample: with async fusion armed before any value, the claim
asserts that no push callbacks are delivered, but complete(5) in the fused
no-value state itself pushes onNext(5) followed by onComplete to the
subscriber. -/
theorem claim_C3_cex :
    ((((DeferrendScalarSubscription.init Nat).requestFusion 2).1.complete 5 false).2 =
      [Ev.next (some 5), Ev.complete]) ∧
    ¬ ((((DeferrendScalarSubscription.init Nat).requestFusion 2).1.complete 5 false).2 = []) := by
  decide

/-- C3 (amended): with async fusion armed before any value arrives, poll
returns the empty marker until complete(v); the complete(v) call stores the
value into the fused slot and additionally pushes onNext(v) then onComplete;
afterwards exactly one poll returns v, and every later poll returns the
empty marker forever (the fused track stays COMPLETE). -/
theorem claim_C3 {T : Type} (v : T) (mode : Nat)
    (d : DeferrendScalarSubscription T) (hm : grantsAsync mode = true) :
    ((DeferrendScalarSubscription.init T).requestFusion mode).1.mFused =
      FusedState.NO_VALUE ∧
    (∀ e : DeferrendScalarSubscription T, e.mFused = FusedState.NO_VALUE →
      e.poll = (e, none)) ∧
    (d.mFused = FusedState.NO_VALUE →
      (d.complete v false).2 = [Ev.next (some v), Ev.complete] ∧
      (d.complete v false).1.mFused = FusedState.HAS_VALUE ∧
      (d.complete v false).1.mValue = some v) ∧
    (∀ e : DeferrendScalarSubscription T, e.mFused = FusedState.HAS_VALUE →
      e.poll = ({ e with mFused := FusedState.COMPLETE }, e.mValue) ∧
      ({ e with mFused := FusedState.COMPLETE } :
          DeferrendScalarSubscription T).mFused = FusedState.COMPLETE) ∧
    (∀ e : DeferrendScalarSubscription T, e.mFused = FusedState.COMPLETE →
      e.poll = (e, none)) := by
  refine ⟨?_, ?_, ?_, ?_, ?_⟩
  · simp [DeferrendScalarSubscription.requestFusion, hm,
      DeferrendScalarSubscription.init]
  · intro e he
    simp [DeferrendScalarSubscription.poll, he]
  · intro hd
    refine ⟨?_, ?_, ?_⟩ <;>
      simp [DeferrendScalarSubscription.complete, hd]
  · intro e he
    refine ⟨?_, rfl⟩
    simp [DeferrendScalarSubscription.poll, he]
  · intro e he
    simp [DeferrendScalarSubscription.poll, he]

theorem claim_C3_witness :
    ((DeferrendScalarSubscription.init Nat).requestFusion 2).1.mFused =
      FusedState.NO_VALUE ∧
    (∀ e : DeferrendScalarSubscription Nat, e.mFused = FusedState.NO_VALUE →
      e.poll = (e, none)) ∧
    ((((DeferrendScalarSubscription.init Nat).requestFusion 2).1.mFused =
        FusedState.NO_VALUE →
      ((((DeferrendScalarSubscription.init Nat).requestFusion 2).1.complete 5 false).2 =
        [Ev.next (some 5), Ev.complete]) ∧
      ((((DeferrendScalarSubscription.init Nat).requestFusion 2).1.complete 5 false).1.mFused =
        FusedState.HAS_VALUE) ∧
      ((((DeferrendScalarSubscription.init Nat).requestFusion 2).1.complete 5 false).1.mValue =
        some 5))) ∧
    (∀ e : DeferrendScalarSubscription Nat, e.mFused = FusedState.HAS_VALUE →
      e.poll = ({ e with mFused := FusedState.COMPLETE }, e.mValue) ∧
      ({ e with mFused := FusedState.COMPLETE } :
          DeferrendScalarSubscription Nat).mFused = FusedState.COMPLETE) ∧
    (∀ e : DeferrendScalarSubscription Nat, e.mFused = FusedState.COMPLETE →
      e.poll = (e, none)) :=
  claim_C3 5 2 ((DeferrendScalarSubscription.init Nat).requestFusion 2).1 (by decide)

/-- C10 counterexample: the claim asserts that after complete(v) followed by
a granted async requestFusion no push callback ever delivers v, but a
subsequent request(1) on the ordinary track pushes onNext(5). -/
theorem claim_C10_cex :
    Ev.next (some 5) ∈ (DeferrendScalarSubscription.run (DeferrendScalarSubscription.init Nat)
      [DOp.complete 5 false, DOp.requestFusion 2, DOp.request 1 false]).2 := by
  decide

/-- C10 (amended): when complete(v) arrives first (storing v on the ordinary
track) and async fusion is granted afterwards, the stored value is lost to
the pull path only: poll returns the empty marker and isEmpty is true, since
the fused track was armed empty; but the ordinary track still holds the
value, so a subsequent request(n) with n positive pushes onNext(v) followed
by onComplete. -/
theorem claim_C10 {T : Type} (v : T) (mode : Nat) (n : Int)
    (hm : grantsAsync mode = true) (hn : 0 < n) :
    ((DeferrendScalarSubscription.init T).complete v false).2 = [] ∧
    ((((DeferrendScalarSubscription.init T).complete v false).1.requestFusion mode).1.poll =
      ((((DeferrendScalarSubscription.init T).complete v false).1.requestFusion mode).1,
        none)) ∧
    ((((DeferrendScalarSubscription.init T).complete v false).1.requestFusion mode).1.isEmpty =
      true) ∧
    ((((DeferrendScalarSubscription.init T).complete v false).1.requestFusion mode).1.request
        n false =
      Except.ok (⟨some v, DeferredState.HAS_REQUEST_HAS_VALUE, FusedState.NO_VALUE⟩,
        [Ev.next (some v), Ev.complete])) := by
  have hle : ¬ (n ≤ 0) := not_le.mpr hn
  refine ⟨?_, ?_, ?_, ?_⟩ <;>
    simp [DeferrendScalarSubscription.complete, DeferrendScalarSubscription.init,
      DeferrendScalarSubscription.requestFusion, DeferrendScalarSubscription.poll,
      DeferrendScalarSubscription.isEmpty, DeferrendScalarSubscription.request,
      DeferrendScalarSubscription.cancel, SH.validRequest, hm, hle]

theorem claim_C10_witness :
    ((DeferrendScalarSubscription.init Nat).complete 5 false).2 = [] ∧
    ((((DeferrendScalarSubscription.init Nat).complete 5 false).1.requestFusion 2).1.poll =
      ((((DeferrendScalarSubscription.init Nat).complete 5 false).1.requestFusion 2).1,
        none)) ∧
    ((((DeferrendScalarSubscription.init Nat).complete 5 false).1.requestFusion 2).1.isEmpty =
      true) ∧
    ((((DeferrendScalarSubscription.init Nat).complete 5 false).1.requestFusion 2).1.request
        1 false =
      Except.ok (⟨some 5, DeferredState.HAS_REQUEST_HAS_VALUE, FusedState.NO_VALUE⟩,
        [Ev.next (some 5), Ev.complete])) :=
  claim_C10 5 2 1 (by decide) (by decide)

lemma countComplete_append (a b : List (Ev T)) :
    countComplete (a ++ b) = countComplete a + countComplete b := by
  simp [countComplete, List.filter_append]

lemma yieldCount_append (a b : List (Ev T)) :
    yieldCount (a ++ b) = yieldCount a + yieldCount b := by
  simp [yieldCount, List.filter_append]

lemma cleanAfterCancel_of_noComplete :
    ∀ tr : List (Ev T), countComplete tr = 0 → cleanAfterCancel tr = true := by
  intro tr
  induction tr with
  | nil => intro _; rfl
  | cons e rest ih =>
    intro h
    have hrest : countComplete rest = 0 := by
      by_cases he : Ev.isComplete e
      · simp [countComplete, List.filter_cons, he] at h
      · simpa [countComplete, List.filter_cons, he] using h
    simp [cleanAfterCancel, hrest, ih hrest]

lemma cleanAfterCancel_append :
    ∀ (a b : List (Ev T)), cleanAfterCancel a = true → cleanAfterCancel b = true →
      (hasCancelledEv a = true → countComplete b = 0) →
      cleanAfterCancel (a ++ b) = true := by
  intro a
  induction a with
  | nil =>
    intro b _ hb _
    simpa using hb
  | cons e rest ih =>
    intro b ha hb hc
    have ha1 : ((!(Ev.isCancelled e) || (countComplete rest == 0)) = true) ∧
        cleanAfterCancel rest = true := by
      simpa [cleanAfterCancel, Bool.and_eq_true] using ha
    have hrec : cleanAfterCancel (rest ++ b) = true := by
      refine ih b ha1.2 hb ?_
      intro h
      refine hc ?_
      simp only [hasCancelledEv, List.any_cons, Bool.or_eq_true]
      exact Or.inr (by simpa [hasCancelledEv] using h)
    by_cases he : Ev.isCancelled e = true
    · have h0 : countComplete rest = 0 := by
        rcases Bool.or_eq_true_iff.1 ha1.1 with h | h
        · rw [he] at h
          simp at h
        · exact Nat.eq_of_beq_eq_true (by simpa using h)
      have hb0 : countComplete b = 0 := hc (by simp [hasCancelledEv, he])
      simp [cleanAfterCancel, countComplete_append, h0, hb0, hrec, he]
    · have he2 : Ev.isCancelled e = false := by simpa using he
      simp [cleanAfterCancel, hrec, he2]

lemma scalar_run_cons (s : ScalarSubscription T) (op : SOp) (ops : List SOp) :
    ScalarSubscription.run s (op :: ops) =
      ((ScalarSubscription.run (s.step op).1 ops).1,
        (s.step op).2 ++ (ScalarSubscription.run (s.step op).1 ops).2) := rfl

lemma scalar_step_once (s : ScalarSubscription T) (op : SOp)
    (h : s.once = true) :
    (s.step op).1.once = true ∧ yieldCount (s.step op).2 = 0 := by
  cases op with
  | request n =>
    by_cases hn : n ≤ 0 <;>
      simp [ScalarSubscription.step, ScalarSubscription.request, SH.validRequest,
        hn, h, yieldCount]
  | poll =>
    simp [ScalarSubscription.step, ScalarSubscription.poll, h, yieldCount, Ev.isYield]
  | cancel =>
    simp [ScalarSubscription.step, ScalarSubscription.cancel, h, yieldCount, Ev.isYield]

lemma scalar_run_once :
    ∀ (ops : List SOp) (s : ScalarSubscription T), s.once = true →
      (ScalarSubscription.run s ops).1.once = true ∧
        yieldCount (ScalarSubscription.run s ops).2 = 0 := by
  intro ops
  induction ops with
  | nil =>
    intro s h
    exact ⟨h, rfl⟩
  | cons op rest ih =>
    intro s h
    have hs := scalar_step_once s op h
    have hr := ih (s.step op).1 hs.1
    rw [scalar_run_cons]
    exact ⟨hr.1, by rw [yieldCount_append, hs.2, hr.2]⟩

lemma scalar_run_bound :
    ∀ (ops : List SOp) (s : ScalarSubscription T),
      yieldCount (ScalarSubscription.run s ops).2 ≤ 1 ∧
      (1 ≤ yieldCount (ScalarSubscription.run s ops).2 →
        (ScalarSubscription.run s ops).1.once = true) := by
  intro ops
  induction ops with
  | nil =>
    intro s
    simp [ScalarSubscription.run, yieldCount]
  | cons op rest ih =>
    intro s
    by_cases h : s.once = true
    · have h1 := scalar_step_once s op h
      have h2 := scalar_run_once rest (s.step op).1 h1.1
      rw [scalar_run_cons, yieldCount_append, h1.2, h2.2]
      exact ⟨by omega, fun _ => h2.1⟩
    · have hf : s.once = false := by simpa using h
      cases op with
      | request n =>
        by_cases hn : n ≤ 0
        · have hstep : s.step (SOp.request n) = (s, []) := by
            simp [ScalarSubscription.step, ScalarSubscription.request,
              SH.validRequest, hn]
          rw [scalar_run_cons, hstep]
          simpa using ih s
        · have hstep : s.step (SOp.request n) =
              ({ s with once := true }, [Ev.next (some s.mValue), Ev.complete]) := by
            simp [ScalarSubscription.step, ScalarSubscription.request,
              SH.validRequest, hn, hf]
          have h2 := scalar_run_once rest { s with once := true } rfl
          rw [scalar_run_cons, hstep, yieldCount_append]
          simp only at h2 ⊢
          rw [h2.2]
          refine ⟨by simp [yieldCount, Ev.isYield], fun _ => h2.1⟩
      | poll =>
        have hstep : s.step SOp.poll =
            ({ s with once := true }, [Ev.polled (some s.mValue)]) := by
          simp [ScalarSubscription.step, ScalarSubscription.poll, hf]
        have h2 := scalar_run_once rest { s with once := true } rfl
        rw [scalar_run_cons, hstep, yieldCount_append]
        simp only at h2 ⊢
        rw [h2.2]
        refine ⟨by simp [yieldCount, Ev.isYield], fun _ => h2.1⟩
      | cancel =>
        have hstep : s.step SOp.cancel = ({ s with once := true }, [Ev.cancelled]) := by
          simp [ScalarSubscription.step, ScalarSubscription.cancel]
        have h2 := scalar_run_once rest { s with once := true } rfl
        rw [scalar_run_cons, hstep, yieldCount_append]
        simp only at h2 ⊢
        rw [h2.2]
        refine ⟨by simp [yieldCount, Ev.isYield], fun _ => h2.1⟩

/-- C6: over any sequence of request/poll/cancel calls on the scalar
subscription, the value is yielded (pushed via onNext or pulled via a
successful poll) at most once; any state that has delivered (or cancelled)
reports isEmpty true and size 0, further positive requests produce no
callbacks, and further polls return the empty marker; and once a yield has
happened the final state is in that delivered condition. -/
theorem claim_C6 {U : Type} (v : U) (ops : List SOp) (n : Int) (hn : 0 < n) :
    yieldCount (ScalarSubscription.run (ScalarSubscription.init v) ops).2 ≤ 1 ∧
    (∀ s : ScalarSubscription U, s.once = true →
      s.isEmpty = true ∧ s.size = 0 ∧ s.request n = Except.ok (s, []) ∧
        s.poll = (s, none)) ∧
    (1 ≤ yieldCount (ScalarSubscription.run (ScalarSubscription.init v) ops).2 →
      (ScalarSubscription.run (ScalarSubscription.init v) ops).1.once = true) := by
  have hb := scalar_run_bound ops (ScalarSubscription.init v)
  have hle : ¬ (n ≤ 0) := not_le.mpr hn
  refine ⟨hb.1, ?_, hb.2⟩
  intro s hs
  refine ⟨hs, ?_, ?_, ?_⟩
  · simp [ScalarSubscription.size, hs]
  · simp [ScalarSubscription.request, SH.validRequest, hle, hs]
  · simp [ScalarSubscription.poll, hs]

theorem claim_C6_witness :
    yieldCount (ScalarSubscription.run (ScalarSubscription.init (5 : Nat))
      [SOp.request 1, SOp.poll, SOp.request 2]).2 ≤ 1 ∧
    (∀ s : ScalarSubscription Nat, s.once = true →
      s.isEmpty = true ∧ s.size = 0 ∧ s.request 1 = Except.ok (s, []) ∧
        s.poll = (s, none)) ∧
    (1 ≤ yieldCount (ScalarSubscription.run (ScalarSubscription.init (5 : Nat))
        [SOp.request 1, SOp.poll, SOp.request 2]).2 →
      (ScalarSubscription.run (ScalarSubscription.init (5 : Nat))
        [SOp.request 1, SOp.poll, SOp.request 2]).1.once = true) :=
  claim_C6 5 [SOp.request 1, SOp.poll, SOp.request 2] 1 (by decide)

lemma dss_run_cons (d : DeferrendScalarSubscription T) (op : DOp T)
    (ops : List (DOp T)) :
    DeferrendScalarSubscription.run d (op :: ops) =
      ((DeferrendScalarSubscription.run (d.step op).1 ops).1,
        (d.step op).2 ++ (DeferrendScalarSubscription.run (d.step op).1 ops).2) := rfl

lemma dss_run_absorbed :
    ∀ (ops : List (DOp T)) (d : DeferrendScalarSubscription T),
      d.mFused ≠ FusedState.NO_VALUE →
      (d.mState = DeferredState.HAS_REQUEST_HAS_VALUE ∨
        d.mState = DeferredState.CANCELLED) →
      noGrantCalls ops = true →
      countComplete (DeferrendScalarSubscription.run d ops).2 = 0 := by
  intro ops
  induction ops with
  | nil => intro d _ _ _; rfl
  | cons op rest ih =>
    intro d hf hs hng
    cases op with
    | complete t rc =>
      have hstep : d.step (DOp.complete t rc) = (d, []) := by
        rcases hs with h | h <;>
          simp [DeferrendScalarSubscription.step, DeferrendScalarSubscription.complete,
            hf, h]
      rw [dss_run_cons, hstep]
      simpa using ih d hf hs (by simpa [noGrantCalls] using hng)
    | request n rc =>
      have hstep : d.step (DOp.request n rc) = (d, []) := by
        by_cases hn : n ≤ 0
        · simp [DeferrendScalarSubscription.step, DeferrendScalarSubscription.request,
            SH.validRequest, hn]
        · rcases hs with h | h <;>
            simp [DeferrendScalarSubscription.step, DeferrendScalarSubscription.request,
              SH.validRequest, hn, h]
      rw [dss_run_cons, hstep]
      simpa using ih d hf hs (by simpa [noGrantCalls] using hng)
    | cancel =>
      have hstep : d.step DOp.cancel = (d.cancel, [Ev.cancelled]) := rfl
      rw [dss_run_cons, hstep]
      have ih2 := ih d.cancel (by simp [DeferrendScalarSubscription.cancel])
        (Or.inr (by simp [DeferrendScalarSubscription.cancel]))
        (by simpa [noGrantCalls] using hng)
      simpa [countComplete_append, countComplete, Ev.isComplete] using ih2
    | requestFusion m =>
      have hng2 : grantsAsync m = false ∧ noGrantCalls rest = true := by
        simpa [noGrantCalls, Bool.and_eq_true, Bool.not_eq_true'] using hng
      have hstep : d.step (DOp.requestFusion m) = (d, []) := by
        simp [DeferrendScalarSubscription.step,
          DeferrendScalarSubscription.requestFusion, hng2.1]
      rw [dss_run_cons, hstep]
      simpa using ih d hf hs hng2.2

lemma dss_safe_extend (rest : List (DOp T)) (d1 : DeferrendScalarSubscription T)
    (tr1 : List (Ev T))
    (hd1 : d1.mFused ≠ FusedState.NO_VALUE)
    (hng : noGrantCalls rest = true)
    (habs : d1.mState = DeferredState.HAS_REQUEST_HAS_VALUE ∨
      d1.mState = DeferredState.CANCELLED)
    (hc1 : countComplete tr1 ≤ 1)
    (hclean1 : cleanAfterCancel tr1 = true) :
    countComplete (tr1 ++ (DeferrendScalarSubscription.run d1 rest).2) ≤ 1 ∧
    cleanAfterCancel (tr1 ++ (DeferrendScalarSubscription.run d1 rest).2) = true := by
  have h0 := dss_run_absorbed rest d1 hd1 habs hng
  constructor
  · rw [countComplete_append, h0]
    omega
  · exact cleanAfterCancel_append tr1 _ hclean1
      (cleanAfterCancel_of_noComplete _ h0) (fun _ => h0)

lemma dss_run_safe :
    ∀ (ops : List (DOp T)) (d : DeferrendScalarSubscription T),
      d.mFused ≠ FusedState.NO_VALUE → noGrantCalls ops = true →
      countComplete (DeferrendScalarSubscription.run d ops).2 ≤ 1 ∧
      cleanAfterCancel (DeferrendScalarSubscription.run d ops).2 = true := by
  intro ops
  induction ops with
  | nil => intro d _ _; exact ⟨Nat.zero_le 1, rfl⟩
  | cons op rest ih =>
    intro d hf hng
    cases op with
    | complete t rc =>
      have hng2 : noGrantCalls rest = true := by simpa [noGrantCalls] using hng
      rcases hstate : d.mState with h1 | h2 | h3 | h4 | h5
      · have hstep : d.step (DOp.complete t rc) =
            ({ d with mValue := some t, mState := DeferredState.NO_REQUEST_HAS_VALUE },
              []) := by
          simp [DeferrendScalarSubscription.step, DeferrendScalarSubscription.complete,
            hf, hstate]
        rw [dss_run_cons, hstep]
        exact ih _ hf hng2
      · cases rc with
        | false =>
          have hstep : d.step (DOp.complete t false) =
              ({ d with mState := DeferredState.HAS_REQUEST_HAS_VALUE },
                [Ev.next (some t), Ev.complete]) := by
            simp [DeferrendScalarSubscription.step, DeferrendScalarSubscription.complete,
              hf, hstate]
          rw [dss_run_cons, hstep]
          exact dss_safe_extend rest _ _ hf hng2 (Or.inl rfl)
            (by simp [countComplete, Ev.isComplete])
            (by simp [cleanAfterCancel, Ev.isCancelled])
        | true =>
          have hstep : d.step (DOp.complete t true) =
              (⟨d.mValue, DeferredState.CANCELLED, FusedState.COMPLETE⟩,
                [Ev.next (some t), Ev.cancelled]) := by
            simp [DeferrendScalarSubscription.step, DeferrendScalarSubscription.complete,
              DeferrendScalarSubscription.cancel, hf, hstate]
          rw [dss_run_cons, hstep]
          exact dss_safe_extend rest _ _ (by simp) hng2 (Or.inr rfl)
            (by simp [countComplete, Ev.isComplete])
            (by simp [cleanAfterCancel, countComplete, Ev.isCancelled, Ev.isComplete])
      · have hstep : d.step (DOp.complete t rc) = (d, []) := by
          simp [DeferrendScalarSubscription.step, DeferrendScalarSubscription.complete,
            hf, hstate]
        rw [dss_run_cons, hstep]
        exact ih d hf hng2
      · have hstep : d.step (DOp.complete t rc) = (d, []) := by
          simp [DeferrendScalarSubscription.step, DeferrendScalarSubscription.complete,
            hf, hstate]
        rw [dss_run_cons, hstep]
        exact ih d hf hng2
      · have hstep : d.step (DOp.complete t rc) = (d, []) := by
          simp [DeferrendScalarSubscription.step, DeferrendScalarSubscription.complete,
            hf, hstate]
        rw [dss_run_cons, hstep]
        exact ih d hf hng2
    | request n rc =>
      have hng2 : noGrantCalls rest = true := by simpa [noGrantCalls] using hng
      by_cases hn : n ≤ 0
      · have hstep : d.step (DOp.request n rc) = (d, []) := by
          simp [DeferrendScalarSubscription.step, DeferrendScalarSubscription.request,
            SH.validRequest, hn]
        rw [dss_run_cons, hstep]
        exact ih d hf hng2
      · rcases hstate : d.mState with h1 | h2 | h3 | h4 | h5
        · have hstep : d.step (DOp.request n rc) =
              ({ d with mState := DeferredState.HAS_REQUEST_NO_VALUE }, []) := by
            simp [DeferrendScalarSubscription.step, DeferrendScalarSubscription.request,
              SH.validRequest, hn, hstate]
          rw [dss_run_cons, hstep]
          exact ih _ hf hng2
        · have hstep : d.step (DOp.request n rc) = (d, []) := by
            simp [DeferrendScalarSubscription.step, DeferrendScalarSubscription.request,
              SH.validRequest, hn, hstate]
          rw [dss_run_cons, hstep]
          exact ih d hf hng2
        · cases rc with
          | false =>
            have hstep : d.step (DOp.request n false) =
                ({ d with mState := DeferredState.HAS_REQUEST_HAS_VALUE },
                  [Ev.next d.mValue, Ev.complete]) := by
              simp [DeferrendScalarSubscription.step, DeferrendScalarSubscription.request,
                SH.validRequest, hn, hstate]
            rw [dss_run_cons, hstep]
            exact dss_safe_extend rest _ _ hf hng2 (Or.inl rfl)
              (by simp [countComplete, Ev.isComplete])
              (by simp [cleanAfterCancel, Ev.isCancelled])
          | true =>
            have hstep : d.step (DOp.request n true) =
                (⟨d.mValue, DeferredState.CANCELLED, FusedState.COMPLETE⟩,
                  [Ev.next d.mValue, Ev.cancelled]) := by
              simp [DeferrendScalarSubscription.step, DeferrendScalarSubscription.request,
                DeferrendScalarSubscription.cancel, SH.validRequest, hn, hstate]
            rw [dss_run_cons, hstep]
            exact dss_safe_extend rest _ _ (by simp) hng2 (Or.inr rfl)
              (by simp [countComplete, Ev.isComplete])
              (by simp [cleanAfterCancel, countComplete, Ev.isCancelled, Ev.isComplete])
        · have hstep : d.step (DOp.request n rc) = (d, []) := by
            simp [DeferrendScalarSubscription.step, DeferrendScalarSubscription.request,
              SH.validRequest, hn, hstate]
          rw [dss_run_cons, hstep]
          exact ih d hf hng2
        · have hstep : d.step (DOp.request n rc) = (d, []) := by
            simp [DeferrendScalarSubscription.step, DeferrendScalarSubscription.request,
              SH.validRequest, hn, hstate]
          rw [dss_run_cons, hstep]
          exact ih d hf hng2
    | cancel =>
      have hng2 : noGrantCalls rest = true := by simpa [noGrantCalls] using hng
      have hstep : d.step DOp.cancel = (d.cancel, [Ev.cancelled]) := rfl
      rw [dss_run_cons, hstep]
      exact dss_safe_extend rest _ _ (by simp [DeferrendScalarSubscription.cancel]) hng2
        (Or.inr (by simp [DeferrendScalarSubscription.cancel]))
        (by simp [countComplete, Ev.isComplete])
        (by simp [cleanAfterCancel, countComplete, Ev.isCancelled, Ev.isComplete])
    | requestFusion m =>
      have hng2 : grantsAsync m = false ∧ noGrantCalls rest = true := by
        simpa [noGrantCalls, Bool.and_eq_true, Bool.not_eq_true'] using hng
      have hstep : d.step (DOp.requestFusion m) = (d, []) := by
        simp [DeferrendScalarSubscription.step,
          DeferrendScalarSubscription.requestFusion, hng2.1]
      rw [dss_run_cons, hstep]
      exact ih d hf hng2.2

/-- C2 counterexample: the claim asserts that over every call sequence,
including a cancel issued re-entrantly from inside onNext, onComplete is
never invoked after cancel().  But after async fusion is granted, complete(5)
pushes onNext(5) and then calls onComplete unconditionally, so a re-entrant
cancel() inside that onNext is followed by onComplete: the trace of
[requestFusion 2, complete 5 with re-entrant cancel] has an onComplete after
the cancel execution. -/
theorem claim_C2_cex :
    cleanAfterCancel (DeferrendScalarSubscription.run (DeferrendScalarSubscription.init Nat)
      [DOp.requestFusion 2, DOp.complete 5 true]).2 = false ∧
    (DeferrendScalarSubscription.run (DeferrendScalarSubscription.init Nat)
      [DOp.requestFusion 2, DOp.complete 5 true]).2 =
      [Ev.next (some 5), Ev.cancelled, Ev.complete] := by
  decide

/-- C2 (amended): over every sequence of complete/request/cancel/requestFusion
calls in which no requestFusion call arms the fusion track, and with cancel
possibly issued re-entrantly from inside any onNext push, the subscriber's
onComplete is invoked at most once and never after a cancel() execution; in
particular a cancel run inside the onNext triggered by complete or request
suppresses the trailing onComplete.  (When a granting requestFusion occurs,
the fused complete path calls onComplete unconditionally after onNext, so a
re-entrant cancel there does not suppress it; see the counterexample.) -/
theorem claim_C2 {U : Type} (ops : List (DOp U)) (h : noGrantCalls ops = true) :
    countComplete (DeferrendScalarSubscription.run
      (DeferrendScalarSubscription.init U) ops).2 ≤ 1 ∧
    cleanAfterCancel (DeferrendScalarSubscription.run
      (DeferrendScalarSubscription.init U) ops).2 = true :=
  dss_run_safe ops (DeferrendScalarSubscription.init U) (by simp
    [DeferrendScalarSubscription.init]) h

theorem claim_C2_witness :
    countComplete (DeferrendScalarSubscription.run (DeferrendScalarSubscription.init Nat)
      [DOp.request 1 false, DOp.complete 5 true, DOp.cancel, DOp.complete 6 false]).2 ≤ 1 ∧
    cleanAfterCancel (DeferrendScalarSubscription.run (DeferrendScalarSubscription.init Nat)
      [DOp.request 1 false, DOp.complete 5 true, DOp.cancel, DOp.complete 6 false]).2 =
      true :=
  claim_C2 [DOp.request 1 false, DOp.complete 5 true, DOp.cancel, DOp.complete 6 false]
    (by decide)

theorem claim_C5_witness :
    (((DeferrendScalarSubscription.init Nat).requestFusion 2).2 = FC.ASYNC ↔
      ((2 : Nat) &&& FC.ASYNC ≠ 0 ∧ (2 : Nat) &&& FC.BOUNDARY = 0)) ∧
    (((2 : Nat) &&& FC.ASYNC ≠ 0 ∧ (2 : Nat) &&& FC.BOUNDARY = 0) →
      ((DeferrendScalarSubscription.init Nat).requestFusion 2).1.mFused =
        FusedState.NO_VALUE) ∧
    (¬((2 : Nat) &&& FC.ASYNC ≠ 0 ∧ (2 : Nat) &&& FC.BOUNDARY = 0) →
      ((DeferrendScalarSubscription.init Nat).requestFusion 2).2 = FC.NONE ∧
      ((DeferrendScalarSubscription.init Nat).requestFusion 2).1 =
        DeferrendScalarSubscription.init Nat) :=
  claim_C5 (DeferrendScalarSubscription.init Nat) 2
